import Mathlib

/-!
# Shallow embedding of the rustflix streaming and transcoding core

This file embeds, in Lean 4, the parts of the rustflix repository that the
verified claims are about:

* crates/rustflix-core/src/streaming.rs — the types `Quality`,
  `StreamingProtocol`, `StreamInfo`, `TranscodingJob`, `TranscodingStatus`
  and their methods;
* crates/rustflix-streaming/src/hls.rs — `HlsGenerator`;
* crates/rustflix-streaming/src/dash.rs — `DashGenerator`;
* crates/rustflix-database/src/repositories/streaming.rs —
  `StreamingRepository::update_session` and
  `StreamingRepository::cleanup_old_jobs`, with each database table modelled
  as a list of the row models from crates/rustflix-database/src/models.rs.

Modelling conventions: `Uuid` becomes `Nat` (identity is all that matters
here); `DateTime<Utc>` becomes an integer or rational timestamp; `f32` and
`f64` become `ℚ` (every operation involved — comparison, clamping, constant
assignment — is exact on the rationals); `Utc::now()` and `Uuid::new_v4()`
become explicit parameters.  Strings built with `format!` are embedded as
the corresponding appends of string literals and rendered numbers.
-/

set_option maxRecDepth 40000

namespace RustFlix

/-- Model of `Uuid`: a natural number. -/
abbrev Uuid := Nat

/-- Model of `DateTime<Utc>`: an integer timestamp. -/
abbrev Timestamp := Int

/-- Model of the Rust call `x.clamp(lo, hi)` on floats: if the value is
below `lo` take `lo`, if above `hi` take `hi`, otherwise keep it. -/
def rustClamp (x lo hi : ℚ) : ℚ :=
  if x < lo then lo else if x > hi then hi else x

/-- Model of the Rust numeric cast `f64 as u32`: truncation toward zero,
saturating at the bounds of `u32`. -/
def f64AsU32 (q : ℚ) : Nat :=
  if q ≤ 0 then 0 else min (Int.toNat ⌊q⌋) (2 ^ 32 - 1)

/-- Model of `format!("{:.1}", x)` scaled: round to the nearest integer
with ties going to the even neighbour. -/
def roundHalfEven (q : ℚ) : ℤ :=
  if q - ⌊q⌋ < 1 / 2 then ⌊q⌋
  else if 1 / 2 < q - ⌊q⌋ then ⌊q⌋ + 1
  else if ⌊q⌋ % 2 = 0 then ⌊q⌋ else ⌊q⌋ + 1

/-- Model of `format!("{:.1}", x)` for a non-negative float: the value
rendered with exactly one digit after the decimal point. -/
def fmtDot1 (q : ℚ) : String :=
  toString (roundHalfEven (q * 10) / 10) ++ "." ++ toString (roundHalfEven (q * 10) % 10)

/-- Model of `format!("{:04}", i)`: decimal digits left-padded with zeros
to width four. -/
def zeroPad4 (i : Nat) : String :=
  let s := Nat.repr i
  if s.length < 4 then String.mk (List.replicate (4 - s.length) '0') ++ s else s

/-- The proposition that `pat` occurs in `s` as a contiguous substring. -/
def containsSub (s pat : String) : Prop := pat.data <:+: s.data

instance (s pat : String) : Decidable (containsSub s pat) :=
  inferInstanceAs (Decidable (pat.data <:+: s.data))

/-- Number of positions of `s` at which the substring `pat` starts. -/
def countOccur (s pat : String) : Nat :=
  (List.range s.data.length).countP (fun i => pat.data.isPrefixOf (s.data.drop i))

/-- Embedding of `StreamingProtocol` from rustflix-core/src/streaming.rs. -/
inductive StreamingProtocol where
  | DirectPlay
  | Hls
  | Dash
  | Progressive
  deriving DecidableEq, Repr

/-- Embedding of `Quality` from rustflix-core/src/streaming.rs. -/
inductive Quality where
  | UltraHD
  | FullHD
  | HD
  | SD
  | Low
  | AudioOnly
  deriving DecidableEq, Repr

/-- Embedding of `Quality::typical_bitrate` (bits per second). -/
def Quality.typical_bitrate : Quality → Nat
  | .UltraHD => 25000000
  | .FullHD => 8000000
  | .HD => 5000000
  | .SD => 2500000
  | .Low => 1000000
  | .AudioOnly => 128000

/-- Embedding of `Quality::resolution`. -/
def Quality.resolution : Quality → Option (Nat × Nat)
  | .UltraHD => some (3840, 2160)
  | .FullHD => some (1920, 1080)
  | .HD => some (1280, 720)
  | .SD => some (854, 480)
  | .Low => some (640, 360)
  | .AudioOnly => none

/-- Embedding of `StreamingProtocol::supports_seeking`. -/
def StreamingProtocol.supports_seeking : StreamingProtocol → Bool
  | .DirectPlay => true
  | .Progressive => true
  | .Hls => true
  | .Dash => true

/-- Embedding of `StreamingProtocol::supports_adaptive_bitrate`. -/
def StreamingProtocol.supports_adaptive_bitrate : StreamingProtocol → Bool
  | .Hls => true
  | .Dash => true
  | _ => false

/-- Embedding of `TranscodingStatus` from rustflix-core/src/streaming.rs. -/
inductive TranscodingStatus where
  | Queued
  | Starting
  | Running
  | Completed
  | Failed
  | Cancelled
  deriving DecidableEq, Repr

/-- Embedding of `TranscodingProfile` from rustflix-core/src/streaming.rs. -/
structure TranscodingProfile where
  name : String
  container : String
  video_codec : Option String
  audio_codec : String
  max_width : Option Nat
  max_height : Option Nat
  max_bitrate : Option Nat
  max_frame_rate : Option ℚ
  audio_channels : Option Nat
  audio_sample_rate : Option Nat
  deriving DecidableEq, Repr

/-- Embedding of `StreamInfo` from rustflix-core/src/streaming.rs. -/
structure StreamInfo where
  id : Uuid
  media_id : Uuid
  user_id : Uuid
  protocol : StreamingProtocol
  quality : Quality
  bitrate : Nat
  resolution : Option (Nat × Nat)
  frame_rate : Option ℚ
  audio_codec : String
  video_codec : Option String
  container : String
  duration : Option ℚ
  supports_seeking : Bool
  created_at : Timestamp
  expires_at : Option Timestamp
  deriving DecidableEq, Repr

/-- Embedding of `StreamInfo::new`.  The fresh random id from
`Uuid::new_v4()` and the clock reading from `Utc::now()` are passed in as
the explicit parameters `fresh_id` and `now`. -/
def StreamInfo.new (fresh_id : Uuid) (now : Timestamp) (media_id user_id : Uuid)
    (protocol : StreamingProtocol) (quality : Quality) : StreamInfo :=
  { id := fresh_id
    media_id := media_id
    user_id := user_id
    protocol := protocol
    quality := quality
    bitrate := quality.typical_bitrate
    resolution := quality.resolution
    frame_rate := some 30
    audio_codec := "aac"
    video_codec := if quality = Quality.AudioOnly then none else some "h264"
    container :=
      match protocol with
      | .DirectPlay => "original"
      | .Hls => "ts"
      | .Dash => "mp4"
      | .Progressive => "mp4"
    duration := none
    supports_seeking := protocol.supports_seeking
    created_at := now
    expires_at := none }

/-- Embedding of `StreamInfo::is_expired`, which evaluates
`self.expires_at.map_or(false, |expires| Utc::now() > expires)`; the clock
reading is the parameter `now`. -/
def StreamInfo.is_expired (now : Timestamp) (s : StreamInfo) : Bool :=
  match s.expires_at with
  | none => false
  | some expires => decide (expires < now)

/-- Embedding of `TranscodingJob` from rustflix-core/src/streaming.rs. -/
structure TranscodingJob where
  id : Uuid
  stream_id : Uuid
  media_id : Uuid
  profile : TranscodingProfile
  status : TranscodingStatus
  progress : ℚ
  current_time : Option ℚ
  estimated_completion : Option Timestamp
  error_message : Option String
  created_at : Timestamp
  updated_at : Timestamp
  deriving DecidableEq, Repr

/-- Embedding of `TranscodingJob::new`. -/
def TranscodingJob.new (fresh_id : Uuid) (now : Timestamp) (stream_id media_id : Uuid)
    (profile : TranscodingProfile) : TranscodingJob :=
  { id := fresh_id
    stream_id := stream_id
    media_id := media_id
    profile := profile
    status := TranscodingStatus.Queued
    progress := 0
    current_time := none
    estimated_completion := none
    error_message := none
    created_at := now
    updated_at := now }

/-- Embedding of `TranscodingJob::update_progress`, which executes
`self.progress = progress.clamp(0.0, 100.0)` and stores the sampled
position and the clock reading. -/
def TranscodingJob.update_progress (j : TranscodingJob) (progress : ℚ)
    (current_time : Option ℚ) (now : Timestamp) : TranscodingJob :=
  { j with
    progress := rustClamp progress 0 100
    current_time := current_time
    updated_at := now }

/-- Embedding of `TranscodingJob::complete`. -/
def TranscodingJob.complete (j : TranscodingJob) (now : Timestamp) : TranscodingJob :=
  { j with
    status := TranscodingStatus.Completed
    progress := 100
    updated_at := now }

/-- Embedding of `TranscodingJob::fail`. -/
def TranscodingJob.fail (j : TranscodingJob) (error : String) (now : Timestamp) : TranscodingJob :=
  { j with
    status := TranscodingStatus.Failed
    error_message := some error
    updated_at := now }

/-- Embedding of `HlsGenerator` from rustflix-streaming/src/hls.rs. -/
structure HlsGenerator where
  segment_duration : ℚ
  segment_count : Nat
  deriving DecidableEq, Repr

/-- Embedding of `HlsGenerator::new`. -/
def HlsGenerator.new (segment_duration : ℚ) (segment_count : Nat) : HlsGenerator :=
  { segment_duration := segment_duration, segment_count := segment_count }

/-- The literal text of the playlist produced by
`HlsGenerator::generate_playlist` up to the rendered target duration. -/
def hlsHeader : String := "#EXTM3U\n#EXT-X-VERSION:3\n#EXT-X-TARGETDURATION:"

/-- The literal text of the playlist produced by
`HlsGenerator::generate_playlist` after the rendered target duration. -/
def hlsTail : String := "\n#EXT-X-MEDIA-SEQUENCE:0\n"

/-- Embedding of `HlsGenerator::generate_playlist`.  The Rust function
returns `Ok` of the `format!` string
`"#EXTM3U\n#EXT-X-VERSION:3\n#EXT-X-TARGETDURATION:{}\n#EXT-X-MEDIA-SEQUENCE:0\n"`
applied to `self.segment_duration as u32`; it never fails and ignores the
media and output paths, so the embedding drops them and the `Result`. -/
def HlsGenerator.generate_playlist (g : HlsGenerator) : String :=
  hlsHeader ++ Nat.repr (f64AsU32 g.segment_duration) ++ hlsTail

/-- Embedding of `HlsGenerator::generate_segments`: the names
`segment_0000.ts` … up to `self.segment_count`, again dropping the unused
path parameters and the always-`Ok` `Result`. -/
def HlsGenerator.generate_segments (g : HlsGenerator) : List String :=
  (List.range g.segment_count).map (fun i => "segment_" ++ zeroPad4 i ++ ".ts")

/-- Embedding of `Representation` from rustflix-streaming/src/dash.rs. -/
structure Representation where
  id : String
  bandwidth : Nat
  width : Option Nat
  height : Option Nat
  codec : String
  deriving DecidableEq, Repr

/-- Embedding of `AdaptationSet` from rustflix-streaming/src/dash.rs. -/
structure AdaptationSet where
  id : Nat
  content_type : String
  representations : List Representation
  deriving DecidableEq, Repr

/-- Embedding of `DashGenerator` from rustflix-streaming/src/dash.rs. -/
structure DashGenerator where
  segment_duration : ℚ
  adaptation_sets : List AdaptationSet
  deriving DecidableEq, Repr

/-- Embedding of `DashGenerator::new`. -/
def DashGenerator.new (segment_duration : ℚ) : DashGenerator :=
  { segment_duration := segment_duration, adaptation_sets := [] }

/-- Embedding of `DashGenerator::add_adaptation_set`. -/
def DashGenerator.add_adaptation_set (g : DashGenerator) (a : AdaptationSet) : DashGenerator :=
  { g with adaptation_sets := g.adaptation_sets ++ [a] }

/-- The literal text of the MPD document produced by
`DashGenerator::generate_manifest` before the rendered buffer time. -/
def mpdHead : String := "<?xml version=\"1.0\" encoding=\"UTF-8\"?>\n<MPD xmlns=\"urn:mpeg:dash:schema:mpd:2011\" type=\"static\" mediaPresentationDuration=\"PT3600S\" minBufferTime=\"PT"

/-- The literal text of the MPD document produced by
`DashGenerator::generate_manifest` after the rendered buffer time. -/
def mpdTail : String := "S\">\n  <Period>\n    <!-- Adaptation sets will be added here -->\n  </Period>\n</MPD>"

/-- Embedding of `DashGenerator::generate_manifest`.  The Rust function
returns `Ok` of the raw `format!` string splicing
`format!("{:.1}", self.segment_duration)` between the two literal parts;
it never fails and ignores the media and output paths. -/
def DashGenerator.generate_manifest (g : DashGenerator) : String :=
  mpdHead ++ fmtDot1 g.segment_duration ++ mpdTail

/-- Embedding of `StreamingSessionModel` from
rustflix-database/src/models.rs (the row type of `streaming_sessions`). -/
structure StreamingSessionModel where
  id : Uuid
  user_id : Uuid
  media_id : Uuid
  device_id : Option String
  protocol : String
  quality : String
  bitrate : Int
  resolution_width : Option Int
  resolution_height : Option Int
  current_position : ℚ
  playback_rate : ℚ
  is_paused : Bool
  bandwidth : Option Int
  buffer_health : Option ℚ
  started_at : ℚ
  last_activity : ℚ
  deriving DecidableEq, Repr

/-- Embedding of `TranscodingJobModel` from
rustflix-database/src/models.rs (the row type of `transcoding_jobs`); the
JSON `profile` column is kept opaque as its serialized text. -/
structure TranscodingJobModel where
  id : Uuid
  stream_id : Uuid
  media_id : Uuid
  profile : String
  status : String
  progress : ℚ
  current_position : Option ℚ
  estimated_completion : Option ℚ
  error_message : Option String
  created_at : ℚ
  updated_at : ℚ
  deriving DecidableEq, Repr

/-- The column assignments of the SQL `UPDATE streaming_sessions SET
current_position = $2, playback_rate = $3, is_paused = $4, bandwidth = $5,
buffer_health = $6, last_activity = $7 WHERE id = $1` applied to one
matching row. -/
def applySessionUpdate (upd row : StreamingSessionModel) : StreamingSessionModel :=
  { row with
    current_position := upd.current_position
    playback_rate := upd.playback_rate
    is_paused := upd.is_paused
    bandwidth := upd.bandwidth
    buffer_health := upd.buffer_health
    last_activity := upd.last_activity }

/-- Embedding of `StreamingRepository::update_session`: the SQL update
rewrites every row of the `streaming_sessions` table whose id matches the
given session and leaves all other rows unchanged. -/
def update_session (db : List StreamingSessionModel) (upd : StreamingSessionModel) :
    List StreamingSessionModel :=
  db.map (fun row => if row.id = upd.id then applySessionUpdate upd row else row)

/-- Embedding of `StreamingRepository::get_session`: the first row of the
table whose id matches, if any (`fetch_optional` on a `SELECT … WHERE
id = $1`). -/
def get_session (db : List StreamingSessionModel) (id : Uuid) :
    Option StreamingSessionModel :=
  db.find? (fun row => row.id = id)

/-- The status strings the SQL predicate
`status IN ('completed', 'failed', 'cancelled')` matches. -/
def terminalStatusStrings : List String := ["completed", "failed", "cancelled"]

/-- Embedding of `StreamingRepository::cleanup_old_jobs`: the rows of
`transcoding_jobs` that survive `DELETE FROM transcoding_jobs WHERE status
IN ('completed', 'failed', 'cancelled') AND updated_at < NOW() - $1 *
INTERVAL '1 day'`.  Timestamps are rational seconds, `now` is the clock
reading of `NOW()` and `days_old` the `$1` parameter, so the cutoff is
`now - days_old * 86400`. -/
def cleanup_old_jobs (now days_old : ℚ) (jobs : List TranscodingJobModel) :
    List TranscodingJobModel :=
  jobs.filter (fun j =>
    !(terminalStatusStrings.contains j.status && decide (j.updated_at < now - days_old * 86400)))

/-- The `rows_affected` result of `cleanup_old_jobs`: how many rows the
delete removed. -/
def cleanup_old_jobs_count (now days_old : ℚ) (jobs : List TranscodingJobModel) : Nat :=
  jobs.length - (cleanup_old_jobs now days_old jobs).length

/-- A concrete transcoding profile (HD tier) used for concrete instances. -/
def sampleProfile : TranscodingProfile :=
  { name := "hd"
    container := "mp4"
    video_codec := some "h264"
    audio_codec := "aac"
    max_width := some 1280
    max_height := some 720
    max_bitrate := some 5000000
    max_frame_rate := none
    audio_channels := some 2
    audio_sample_rate := some 48000 }

/-- A concrete job in the Running state with progress 50. -/
def runningJob : TranscodingJob :=
  { TranscodingJob.new 7 0 1 2 sampleProfile with
    status := TranscodingStatus.Running
    progress := 50 }

/-- A concrete job driven to the Completed state via `complete`. -/
def completedJob : TranscodingJob :=
  (TranscodingJob.new 9 0 1 2 sampleProfile).complete 3

/-- A concrete job in the Running (live, non-terminal) state owning a DASH
manifest. -/
def liveDashJob : TranscodingJob :=
  { TranscodingJob.new 8 0 1 2 sampleProfile with
    status := TranscodingStatus.Running }

/-- A concrete streaming session row whose stored position is 10. -/
def session10 : StreamingSessionModel :=
  { id := 1
    user_id := 2
    media_id := 3
    device_id := none
    protocol := "hls"
    quality := "hd"
    bitrate := 5000000
    resolution_width := some 1280
    resolution_height := some 720
    current_position := 10
    playback_rate := 1
    is_paused := false
    bandwidth := none
    buffer_health := none
    started_at := 0
    last_activity := 0 }

/-- The same session reported again with the stale position 7 (a non-seek,
out-of-order update in the wording of the spec). -/
def session7 : StreamingSessionModel :=
  { session10 with current_position := 7, last_activity := 1 }

/-- A concrete terminal (completed) job row last updated at time 0. -/
def oldCompletedJobRow : TranscodingJobModel :=
  { id := 11
    stream_id := 12
    media_id := 13
    profile := "\x7b\x7d"
    status := "completed"
    progress := 100
    current_position := none
    estimated_completion := none
    error_message := none
    created_at := 0
    updated_at := 0 }

/-- A concrete running (non-terminal) job row last updated at time 0. -/
def runningJobRow : TranscodingJobModel :=
  { oldCompletedJobRow with id := 14, status := "running", progress := 40 }

/-- Clamping into a well-ordered interval lands inside the interval. -/
theorem rustClamp_mem (x lo hi : ℚ) (h : lo ≤ hi) :
    lo ≤ rustClamp x lo hi ∧ rustClamp x lo hi ≤ hi := by
  unfold rustClamp
  split_ifs with h1 h2 <;> constructor <;> linarith

/-- **C9**: each quality tier carries exactly the fixed typical bitrate and
resolution listed in the claim — UltraHD 25 Mbps at 3840x2160, FullHD
8 Mbps at 1920x1080, HD 5 Mbps at 1280x720, SD 2.5 Mbps at 854x480, Low
1 Mbps at 640x360, AudioOnly 128 kbps with no resolution — and
`typical_bitrate` is strictly decreasing along the order UltraHD, FullHD,
HD, SD, Low, AudioOnly. -/
theorem C9_quality_catalog :
    Quality.UltraHD.typical_bitrate = 25000000
    ∧ Quality.UltraHD.resolution = some (3840, 2160)
    ∧ Quality.FullHD.typical_bitrate = 8000000
    ∧ Quality.FullHD.resolution = some (1920, 1080)
    ∧ Quality.HD.typical_bitrate = 5000000
    ∧ Quality.HD.resolution = some (1280, 720)
    ∧ Quality.SD.typical_bitrate = 2500000
    ∧ Quality.SD.resolution = some (854, 480)
    ∧ Quality.Low.typical_bitrate = 1000000
    ∧ Quality.Low.resolution = some (640, 360)
    ∧ Quality.AudioOnly.typical_bitrate = 128000
    ∧ Quality.AudioOnly.resolution = none
    ∧ Quality.FullHD.typical_bitrate < Quality.UltraHD.typical_bitrate
    ∧ Quality.HD.typical_bitrate < Quality.FullHD.typical_bitrate
    ∧ Quality.SD.typical_bitrate < Quality.HD.typical_bitrate
    ∧ Quality.Low.typical_bitrate < Quality.SD.typical_bitrate
    ∧ Quality.AudioOnly.typical_bitrate < Quality.Low.typical_bitrate := by
  decide

/-- **C1** counterexample: a job in the Running state at progress 50 accepts
an `update_progress` sample of 30 and its stored progress drops to 30, so
while Running the progress is not monotonically non-decreasing across
successive `update_progress` calls. -/
theorem C1_counterexample :
    runningJob.status = TranscodingStatus.Running
    ∧ runningJob.progress = 50
    ∧ (runningJob.update_progress 30 none 5).status = TranscodingStatus.Running
    ∧ (runningJob.update_progress 30 none 5).progress = 30
    ∧ (runningJob.update_progress 30 none 5).progress < runningJob.progress := by
  refine ⟨rfl, rfl, rfl, by decide, by decide⟩

/-- **C1** amended: `update_progress` stores the sampled progress clamped to
[0, 100] whatever the previous value was (so progress may decrease while
Running — the code enforces no monotonicity), and `complete` sets the
status to Completed with progress exactly 100. -/
theorem C1_amended_progress_behaviour (j : TranscodingJob) (p : ℚ) (t : Option ℚ)
    (now : Timestamp) :
    (j.update_progress p t now).progress = rustClamp p 0 100
    ∧ (j.complete now).progress = 100
    ∧ (j.complete now).status = TranscodingStatus.Completed :=
  ⟨rfl, rfl, rfl⟩

/-- **C7**: `update_progress` stores exactly the input clamped into
[0, 100]; the progress field lies in [0, 100] after `new` and after
`update_progress` unconditionally, and after `complete` and `fail` whenever
it lay in the range before (`fail` leaves progress untouched). -/
theorem C7_progress_clamped (fresh_id : Uuid) (now now2 : Timestamp)
    (stream_id media_id : Uuid) (profile : TranscodingProfile)
    (j : TranscodingJob) (p : ℚ) (t : Option ℚ) (err : String)
    (hlo : 0 ≤ j.progress) (hhi : j.progress ≤ 100) :
    (j.update_progress p t now2).progress = rustClamp p 0 100
    ∧ (0 ≤ (TranscodingJob.new fresh_id now stream_id media_id profile).progress
        ∧ (TranscodingJob.new fresh_id now stream_id media_id profile).progress ≤ 100)
    ∧ (0 ≤ (j.update_progress p t now2).progress
        ∧ (j.update_progress p t now2).progress ≤ 100)
    ∧ (0 ≤ (j.complete now2).progress ∧ (j.complete now2).progress ≤ 100)
    ∧ (0 ≤ (j.fail err now2).progress ∧ (j.fail err now2).progress ≤ 100) := by
  refine ⟨rfl, ⟨le_refl 0, by norm_num [TranscodingJob.new]⟩, ?_,
    ⟨by norm_num [TranscodingJob.complete], by norm_num [TranscodingJob.complete]⟩, ⟨hlo, hhi⟩⟩
  exact rustClamp_mem p 0 100 (by norm_num)

/-- Witness for C7 at a concrete Running job and the out-of-range sample
250. -/
theorem C7_progress_clamped_witness :
    (runningJob.update_progress 250 none 5).progress = rustClamp 250 0 100
    ∧ (0 ≤ (TranscodingJob.new 7 0 1 2 sampleProfile).progress
        ∧ (TranscodingJob.new 7 0 1 2 sampleProfile).progress ≤ 100)
    ∧ (0 ≤ (runningJob.update_progress 250 none 5).progress
        ∧ (runningJob.update_progress 250 none 5).progress ≤ 100)
    ∧ (0 ≤ (runningJob.complete 5).progress ∧ (runningJob.complete 5).progress ≤ 100)
    ∧ (0 ≤ (runningJob.fail "boom" 5).progress ∧ (runningJob.fail "boom" 5).progress ≤ 100) :=
  C7_progress_clamped 7 0 5 1 2 sampleProfile runningJob 250 none "boom"
    (by decide) (by decide)

/-- **C10**: `StreamInfo::new` always sets `expires_at` to none, and
`is_expired` returns false whenever `expires_at` is none, so a freshly
negotiated stream descriptor is never reported expired until an expiry is
explicitly set. -/
theorem C10_fresh_stream_never_expired (fresh_id : Uuid) (now t : Timestamp)
    (media_id user_id : Uuid) (protocol : StreamingProtocol) (quality : Quality)
    (s : StreamInfo) (h : s.expires_at = none) :
    (StreamInfo.new fresh_id now media_id user_id protocol quality).expires_at = none
    ∧ StreamInfo.is_expired t (StreamInfo.new fresh_id now media_id user_id protocol quality)
        = false
    ∧ StreamInfo.is_expired t s = false := by
  refine ⟨rfl, rfl, ?_⟩
  unfold StreamInfo.is_expired
  rw [h]

/-- Witness for C10 at concrete stream descriptors. -/
theorem C10_fresh_stream_never_expired_witness :
    (StreamInfo.new 1 0 2 3 StreamingProtocol.Hls Quality.FullHD).expires_at = none
    ∧ StreamInfo.is_expired 99 (StreamInfo.new 1 0 2 3 StreamingProtocol.Hls Quality.FullHD)
        = false
    ∧ StreamInfo.is_expired 99 (StreamInfo.new 4 0 5 6 StreamingProtocol.Dash Quality.HD)
        = false :=
  C10_fresh_stream_never_expired 1 0 99 2 3 StreamingProtocol.Hls Quality.FullHD
    (StreamInfo.new 4 0 5 6 StreamingProtocol.Dash Quality.HD) rfl

/-- Looking a session up by id after `update_session` returns the previously
stored row with the column assignments applied. -/
theorem get_session_update_session (db : List StreamingSessionModel)
    (upd : StreamingSessionModel) :
    get_session (update_session db upd) upd.id
      = (get_session db upd.id).map (applySessionUpdate upd) := by
  induction db with
  | nil => rfl
  | cons row rest ih =>
      unfold update_session get_session at ih ⊢
      by_cases h : row.id = upd.id
      · simp [List.find?_cons, h, applySessionUpdate]
      · simp only [List.map_cons, if_neg h]
        rw [List.find?_cons_of_neg, List.find?_cons_of_neg]
        · exact ih
        · simpa using h
        · simpa using h

/-- **C3** counterexample: with session 1 stored at position 10, an update
carrying position 7 (there is no seek flag anywhere in the repository
model) is applied, so the registry afterwards stores 7 — the stale update
is not dropped and the stored position does not stay at 10. -/
theorem C3_counterexample :
    (get_session (update_session [session10] session7) 1).map
        StreamingSessionModel.current_position = some 7
    ∧ (get_session (update_session [session10] session7) 1).map
        StreamingSessionModel.current_position ≠ some 10 := by
  exact ⟨rfl, by decide⟩

/-- **C3** amended: `update_session` unconditionally overwrites the stored
position (together with playback rate, pause flag, bandwidth, buffer health
and last activity) of the matching session, with no non-decreasing check
and no seek flag: after an update the stored position is exactly the
position carried by the update, even when it is lower. -/
theorem C3_amended_update_overwrites (db : List StreamingSessionModel)
    (upd s : StreamingSessionModel) (h : get_session db upd.id = some s) :
    get_session (update_session db upd) upd.id = some (applySessionUpdate upd s)
    ∧ (applySessionUpdate upd s).current_position = upd.current_position := by
  refine ⟨?_, rfl⟩
  rw [get_session_update_session, h]
  rfl

/-- Witness for the amended C3 on the concrete 10-then-7 update pair. -/
theorem C3_amended_update_overwrites_witness :
    get_session (update_session [session10] session7) session7.id
      = some (applySessionUpdate session7 session10)
    ∧ (applySessionUpdate session7 session10).current_position = session7.current_position :=
  C3_amended_update_overwrites [session10] session7 session10 rfl

/-- **C8**: a row of the transcoding jobs table is removed by
`cleanup_old_jobs` with retention window `days_old` exactly when its status
is terminal (completed, failed or cancelled) and its last update is older
than the window; queued, starting and running rows are never removed, and a
terminal row still within the window survives (the left-to-right direction
of the iff). -/
theorem C8_cleanup_removes_exactly_expired_terminal (now days_old : ℚ)
    (jobs : List TranscodingJobModel) (j : TranscodingJobModel) (hmem : j ∈ jobs) :
    (j ∉ cleanup_old_jobs now days_old jobs
      ↔ (j.status ∈ terminalStatusStrings ∧ j.updated_at < now - days_old * 86400))
    ∧ ((j.status = "queued" ∨ j.status = "starting" ∨ j.status = "running")
        → j ∈ cleanup_old_jobs now days_old jobs) := by
  constructor
  · rw [cleanup_old_jobs, List.mem_filter]
    simp [hmem]
    intro _
    constructor <;> intro <;> linarith
  · intro hst
    rw [cleanup_old_jobs, List.mem_filter]
    refine ⟨hmem, ?_⟩
    have hn : j.status ∉ terminalStatusStrings := by
      rcases hst with h | h | h <;> rw [h] <;> decide
    simp [hn]

/-- Witness for C8 on a two-row table holding an expired completed job and a
running job, with a one-day window. -/
theorem C8_cleanup_removes_exactly_expired_terminal_witness :
    (oldCompletedJobRow ∉ cleanup_old_jobs 200000 1 [oldCompletedJobRow, runningJobRow]
      ↔ (oldCompletedJobRow.status ∈ terminalStatusStrings
          ∧ oldCompletedJobRow.updated_at < 200000 - 1 * 86400))
    ∧ ((oldCompletedJobRow.status = "queued" ∨ oldCompletedJobRow.status = "starting"
          ∨ oldCompletedJobRow.status = "running")
        → oldCompletedJobRow ∈ cleanup_old_jobs 200000 1 [oldCompletedJobRow, runningJobRow]) :=
  C8_cleanup_removes_exactly_expired_terminal 200000 1 [oldCompletedJobRow, runningJobRow]
    oldCompletedJobRow (by simp)

/-- The helper `Nat.digitChar` yields a decimal digit character below base
ten. -/
theorem digitChar_isDigit (m : Nat) (h : m < 10) : (Nat.digitChar m).isDigit = true := by
  interval_cases m <;> decide

/-- Every character `Nat.toDigitsCore` emits at base ten is a decimal digit,
provided the accumulator already holds only digits. -/
theorem mem_toDigitsCore_isDigit (fuel : Nat) :
    ∀ (n : Nat) (ds : List Char), (∀ c ∈ ds, c.isDigit = true) →
      ∀ c ∈ Nat.toDigitsCore 10 fuel n ds, c.isDigit = true := by
  induction fuel with
  | zero => intro n ds hds c hc; exact hds c (by simpa [Nat.toDigitsCore] using hc)
  | succ fuel ih =>
      intro n ds hds c hc
      rw [Nat.toDigitsCore] at hc
      by_cases h : n / 10 = 0
      · simp only [h, if_pos rfl] at hc
        rcases List.mem_cons.mp hc with h1 | h1
        · subst h1; exact digitChar_isDigit _ (Nat.mod_lt _ (by norm_num))
        · exact hds c h1
      · simp only [if_neg h] at hc
        refine ih (n / 10) _ ?_ c hc
        intro d hd
        rcases List.mem_cons.mp hd with h1 | h1
        · subst h1; exact digitChar_isDigit _ (Nat.mod_lt _ (by norm_num))
        · exact hds d h1

/-- Every character of the decimal rendering of a natural number is a
decimal digit. -/
theorem natRepr_all_digits (n : Nat) : ∀ c ∈ (Nat.repr n).data, c.isDigit = true := by
  intro c hc
  have hdata : (Nat.repr n).data = Nat.toDigits 10 n := by
    simp [Nat.repr, List.asString]
  rw [hdata, Nat.toDigits] at hc
  exact mem_toDigitsCore_isDigit (n + 1) n [] (by simp) c hc

/-- The character `L` never occurs in a generated HLS playlist: the fixed
header and tail avoid it and the spliced target duration is all digits. -/
theorem no_L_in_playlist (g : HlsGenerator) : 'L' ∉ (g.generate_playlist).data := by
  unfold HlsGenerator.generate_playlist
  simp only [String.data_append]
  intro hmem
  rcases List.mem_append.mp hmem with hm | hm
  · rcases List.mem_append.mp hm with hm2 | hm2
    · exact absurd hm2 (by decide)
    · exact absurd (natRepr_all_digits _ _ hm2) (by decide)
  · exact absurd hm (by decide)

/-- The character `F` never occurs in a generated HLS playlist. -/
theorem no_F_in_playlist (g : HlsGenerator) : 'F' ∉ (g.generate_playlist).data := by
  unfold HlsGenerator.generate_playlist
  simp only [String.data_append]
  intro hmem
  rcases List.mem_append.mp hmem with hm | hm
  · rcases List.mem_append.mp hm with hm2 | hm2
    · exact absurd hm2 (by decide)
    · exact absurd (natRepr_all_digits _ _ hm2) (by decide)
  · exact absurd hm (by decide)

/-- **C2** counterexample: the playlist generated while the owning job is
Completed (driven there by `complete`) still carries no `#EXT-X-ENDLIST`
tag, so the playlist does not contain the end tag if and only if the owning
job is Completed. -/
theorem C2_counterexample :
    completedJob.status = TranscodingStatus.Completed
    ∧ ¬ containsSub ((HlsGenerator.new 6 5).generate_playlist) "#EXT-X-ENDLIST"
    ∧ ¬ (containsSub ((HlsGenerator.new 6 5).generate_playlist) "#EXT-X-ENDLIST"
          ↔ completedJob.status = TranscodingStatus.Completed) := by
  refine ⟨rfl, by decide, ?_⟩
  intro hiff
  exact absurd (hiff.mpr rfl) (by decide)

/-- **C2** amended: a generated HLS playlist never contains
`#EXT-X-ENDLIST`, whatever the status of the owning job — in particular no
end tag appears while the job is non-terminal, but none appears on
Completed either, since `generate_playlist` never consults a job. -/
theorem C2_amended_no_end_tag (g : HlsGenerator) :
    ¬ containsSub g.generate_playlist "#EXT-X-ENDLIST" := by
  intro h
  exact no_L_in_playlist g (h.subset (by decide))

/-- **C4** counterexample: with configured segment duration 6 and segment
count 5, an asset of duration 12 should by the claim be referenced by
`ceil(12 / 6) = 2` segments; instead the playlist references no segment at
all (no `#EXTINF` entry) and `generate_segments` yields its configured 5
names, which is not 2. -/
theorem C4_counterexample :
    (⌈(12 : ℚ) / 6⌉ : ℤ) = 2
    ∧ (HlsGenerator.new 6 5).generate_segments.length = 5
    ∧ ¬ containsSub ((HlsGenerator.new 6 5).generate_playlist) "#EXTINF:"
    ∧ (HlsGenerator.new 6 5).generate_segments.length ≠ 2 := by
  refine ⟨by norm_num, by decide, by decide, by decide⟩

/-- **C4** amended: the playlist carries `#EXT-X-TARGETDURATION:` followed
by the configured segment duration truncated as `u32`; the playlist itself
references no segment (no `#EXTINF` entry); and `generate_segments` returns
exactly `segment_count` segment names, independent of any asset duration
(which the generator never receives). -/
theorem C4_amended_targetduration_and_count (g : HlsGenerator) :
    containsSub g.generate_playlist
        ("#EXT-X-TARGETDURATION:" ++ Nat.repr (f64AsU32 g.segment_duration))
    ∧ ¬ containsSub g.generate_playlist "#EXTINF:"
    ∧ g.generate_segments.length = g.segment_count := by
  refine ⟨?_, ?_, by simp [HlsGenerator.generate_segments]⟩
  · show ("#EXT-X-TARGETDURATION:" ++ Nat.repr (f64AsU32 g.segment_duration)).data
        <:+: (g.generate_playlist).data
    have hsplit : hlsHeader.data
        = ("#EXTM3U\n#EXT-X-VERSION:3\n" : String).data
          ++ ("#EXT-X-TARGETDURATION:" : String).data := by decide
    unfold HlsGenerator.generate_playlist
    simp only [String.data_append]
    refine ⟨("#EXTM3U\n#EXT-X-VERSION:3\n" : String).data, hlsTail.data, ?_⟩
    rw [hsplit]
    simp [List.append_assoc]
  · intro h
    exact no_F_in_playlist g (h.subset (by decide))

/-- **C5** counterexample: with segment count 2 the claim asks for one
`#EXTINF` plus URI line per segment, but the playlist carries no `#EXTINF`
line at all; and with segment duration 6.5 the rendered target duration is
the truncated `6`, as the full playlist text shows. -/
theorem C5_counterexample :
    (HlsGenerator.new 6 2).segment_count = 2
    ∧ ¬ containsSub ((HlsGenerator.new 6 2).generate_playlist) "#EXTINF:"
    ∧ (HlsGenerator.new (13 / 2) 2).generate_playlist
        = "#EXTM3U\n#EXT-X-VERSION:3\n#EXT-X-TARGETDURATION:6\n#EXT-X-MEDIA-SEQUENCE:0\n"
    ∧ (13 : ℚ) / 2 ≠ 6 := by
  refine ⟨rfl, by decide, ?_, by norm_num⟩
  have h : f64AsU32 ((13 : ℚ) / 2) = 6 := by
    norm_num [f64AsU32]
    decide
  show hlsHeader ++ Nat.repr (f64AsU32 ((13 : ℚ) / 2)) ++ hlsTail = _
  rw [h]
  decide

/-- **C5** amended: every generated playlist is exactly the fixed header
`#EXTM3U`, `#EXT-X-VERSION:3`, `#EXT-X-TARGETDURATION:` with the truncated
segment duration, then `#EXT-X-MEDIA-SEQUENCE:0`, and contains no
`#EXTINF`/URI entry for any segment. -/
theorem C5_amended_playlist_shape (g : HlsGenerator) :
    g.generate_playlist = hlsHeader ++ Nat.repr (f64AsU32 g.segment_duration) ++ hlsTail
    ∧ hlsHeader.data <+: (g.generate_playlist).data
    ∧ hlsTail.data <:+ (g.generate_playlist).data
    ∧ ¬ containsSub g.generate_playlist "#EXTINF:" := by
  refine ⟨rfl, ?_, ?_, ?_⟩
  · show hlsHeader.data <+: (g.generate_playlist).data
    unfold HlsGenerator.generate_playlist
    simp only [String.data_append]
    exact ⟨(Nat.repr (f64AsU32 g.segment_duration)).data ++ hlsTail.data,
      by simp [List.append_assoc]⟩
  · show hlsTail.data <:+ (g.generate_playlist).data
    unfold HlsGenerator.generate_playlist
    simp only [String.data_append]
    exact ⟨hlsHeader.data ++ (Nat.repr (f64AsU32 g.segment_duration)).data, rfl⟩
  · intro h
    exact no_F_in_playlist g (h.subset (by decide))

/-- Evaluation of the one-decimal rendering at segment duration 4. -/
theorem fmtDot1_four : fmtDot1 4 = "4.0" := by
  have h : roundHalfEven ((4 : ℚ) * 10) = 40 := by
    unfold roundHalfEven
    norm_num
  unfold fmtDot1
  rw [h]
  decide

/-- **C6** counterexample: while the owning job is live (Running,
non-terminal) the generated manifest still declares `type="static"` and
never `type="dynamic"`. -/
theorem C6_counterexample :
    liveDashJob.status = TranscodingStatus.Running
    ∧ ¬ containsSub ((DashGenerator.new 4).generate_manifest) "type=\"dynamic\""
    ∧ containsSub ((DashGenerator.new 4).generate_manifest) "type=\"static\"" := by
  have hm : (DashGenerator.new 4).generate_manifest = mpdHead ++ "4.0" ++ mpdTail := by
    show mpdHead ++ fmtDot1 4 ++ mpdTail = mpdHead ++ "4.0" ++ mpdTail
    rw [fmtDot1_four]
  refine ⟨rfl, ?_, ?_⟩ <;> rw [hm] <;> decide

/-- **C6** amended: the generated manifest is the fixed MPD XML around the
rendered buffer time, it always declares `type="static"` whatever the
owning job status (the generator never consults a job), and its fixed text
holds exactly one `Period` element. -/
theorem C6_amended_manifest_static (g : DashGenerator) :
    g.generate_manifest = mpdHead ++ fmtDot1 g.segment_duration ++ mpdTail
    ∧ containsSub g.generate_manifest "type=\"static\""
    ∧ containsSub g.generate_manifest "<Period>"
    ∧ countOccur mpdHead "<Period>" = 0
    ∧ countOccur mpdTail "<Period>" = 1
    ∧ countOccur mpdTail "</Period>" = 1 := by
  refine ⟨rfl, ?_, ?_, by decide, by decide, by decide⟩
  · have h : ("type=\"static\"" : String).data <:+: mpdHead.data := by decide
    obtain ⟨s, t, hst⟩ := h
    show ("type=\"static\"" : String).data <:+: (g.generate_manifest).data
    unfold DashGenerator.generate_manifest
    simp only [String.data_append]
    refine ⟨s, t ++ ((fmtDot1 g.segment_duration).data ++ mpdTail.data), ?_⟩
    rw [← hst]
    simp [List.append_assoc]
  · have h : ("<Period>" : String).data <:+: mpdTail.data := by decide
    obtain ⟨s, t, hst⟩ := h
    show ("<Period>" : String).data <:+: (g.generate_manifest).data
    unfold DashGenerator.generate_manifest
    simp only [String.data_append]
    refine ⟨(mpdHead.data ++ (fmtDot1 g.segment_duration).data) ++ s, t, ?_⟩
    rw [← hst]
    simp [List.append_assoc]

end RustFlix
